import Mathlib

/-!
sso-service: credential service (auth) and its PostgreSQL store (pgsql)

A shallow embedding of `internal/services/auth/auth.go` and
`internal/storage/pgsql/pgsql.go`.

* Go `error` values are modelled by `GoError`: leaf errors made by `errors.New`
  (compared by pointer identity) and errors made by `fmt.Errorf` with `%w`.
* Every collaborator the code calls through an interface or a library
  (the three storage capabilities, bcrypt, the token issuer, the pgx
  connection) is a field of a structure: a function from its arguments and the
  state of the outside world to its Go results and the next state.
* Each collaborator invocation is recorded, in order, in a list of `Call`s, so
  that statements about what is and is not invoked can be made.
* Calls to the logger are not modelled: they do not influence any returned value.
-/

set_option maxRecDepth 100000

/-- Go `[]byte`. -/
abbrev Bytes := List UInt8

/-- The conversion `[]byte(s)` of a Go string. -/
def bytesOf (s : String) : Bytes := s.toUTF8.data.toList

/-! ## Errors -/

/-- A non-nil Go `error` value.  `errorString ptr s` is the value `errors.New(s)` returned
at address `ptr` (two calls of `errors.New` give different pointers, also for equal texts);
leaf errors of other types are represented the same way.  `wrapError msg err` is the value
built by `fmt.Errorf` with one `%w` verb. -/
inductive GoError where
  | errorString (ptr : Nat) (s : String)
  | wrapError (msg : String) (err : GoError)
  deriving DecidableEq, Repr

namespace GoError

/-- The method `Error()`. -/
def Error : GoError → String
  | errorString _ s => s
  | wrapError msg _ => msg

/-- The function `errors.Unwrap`. -/
def Unwrap : GoError → Option GoError
  | errorString _ _ => none
  | wrapError _ err => some err

end GoError

/-- The call `fmt.Errorf("%s: %w", op, err)`. -/
def fmtErrorf (op : String) (err : GoError) : GoError :=
  .wrapError (op ++ ": " ++ err.Error) err

/-- The function `errors.Is(err, target)` for non-nil arguments: walk the `Unwrap` chain of
`err` and compare each link with `target`. -/
def errorsIs : GoError → GoError → Bool
  | .errorString ptr s, target => decide (GoError.errorString ptr s = target)
  | .wrapError msg err, target =>
      decide (GoError.wrapError msg err = target) || errorsIs err target

/-- The sentinel `auth.ErrInvalidCredentials = errors.New("invalid credentials")`. -/
def ErrInvalidCredentials : GoError := .errorString 1 "invalid credentials"

/-- Modelled from the spec: package `internal/storage` is not among the sources; the
sentinel `storage.ErrUserNotFound` is the store's NotFoundError for users. -/
def storage.ErrUserNotFound : GoError := .errorString 2 "user not found"

/-- Modelled from the spec: package `internal/storage` is not among the sources; the
sentinel `storage.ErrAppNotFound` is the store's NotFoundError for applications. -/
def storage.ErrAppNotFound : GoError := .errorString 3 "app not found"

/-- The sentinel `sql.ErrNoRows` of the standard library package `database/sql`. -/
def sql.ErrNoRows : GoError := .errorString 4 "sql: no rows in result set"

/-- The sentinel `pgx.ErrNoRows` of `github.com/jackc/pgx`, which `(*pgx.Row).Scan` returns
when the query gave no row.  It is a value of its own, made by a separate `errors.New`. -/
def pgx.ErrNoRows : GoError := .errorString 5 "no rows in result set"

/-! ## Domain models -/

/-- Modelled from the spec: package `internal/domain/models` is not among the sources; the
record `models.User` has the fields `Storage.User` scans into (ID, email, password hash). -/
structure User where
  ID : Int
  Email : String
  PasswordHash : Bytes
  deriving DecidableEq, Repr

/-- Modelled from the spec: package `internal/domain/models` is not among the sources; the
record `models.App` has the fields `Storage.App` scans into (ID, name, signing secret). -/
structure App where
  ID : Int
  Name : String
  Secret : String
  deriving DecidableEq, Repr

/-- The zero value `models.User{}`. -/
def User.zero : User := ⟨0, "", []⟩

/-- The zero value `models.App{}`. -/
def App.zero : App := ⟨0, "", ""⟩

/-! ## Collaborator calls and the world -/

/-- One invocation of a collaborator, named after the capability invoked, with its
arguments. -/
inductive Call where
  | usrSaver (email : String) (passHash : Bytes)
  | usrProvider (email : String)
  | appProvider (appID : Int)
  | bcryptGenerate (password : Bytes) (cost : Int)
  | bcryptCompare (hashedPassword : Bytes) (password : Bytes)
  | jwtNewToken (user : User) (app : App) (ttl : Int)
  | dbBegin
  | txInsertUser (email : String) (passHash : Bytes)
  | txCommit
  | txRollback
  | dbSelectUser (email : String)
  | dbSelectApp (id : Int)
  deriving DecidableEq, Repr

/-- The world a call runs in: the state `st` of everything outside the service (database,
random source, clock) and the collaborator invocations made so far. -/
structure World (σ : Type) where
  st : σ
  calls : List Call

/-- Invoke a collaborator: run it on the outside state and record the call. -/
def World.invoke {σ α : Type} (w : World σ) (c : Call) (f : σ → α × σ) : α × World σ :=
  ((f w.st).1, ⟨(f w.st).2, w.calls ++ [c]⟩)

/-! ## The auth service (`internal/services/auth/auth.go`) -/

/-- The constant `bcrypt.DefaultCost`. -/
def bcrypt.DefaultCost : Int := 10

/-- The functions `Auth` calls directly, taken as parameters: `bcrypt.GenerateFromPassword`
and `bcrypt.CompareHashAndPassword` of `golang.org/x/crypto/bcrypt`, and `jwt.NewToken` of
package `internal/lib/jwt`, which is not among the sources.  A nil error is `none`. -/
structure Lib (σ : Type) where
  GenerateFromPassword : Bytes → Int → σ → (Bytes × Option GoError) × σ
  CompareHashAndPassword : Bytes → Bytes → σ → Option GoError × σ
  NewToken : User → App → Int → σ → (String × Option GoError) × σ

/-- The struct `Auth`: the interface-typed capabilities `UserSaver`, `UserProvider`,
`AppProvider` and the token lifetime (`time.Duration`, nanoseconds).  A capability returns
its Go results, value and error both, as Go does.  The field `lib` holds the library
functions the methods call; the field `log` is left out. -/
structure Auth (σ : Type) where
  usrSaver : String → Bytes → σ → (Int × Option GoError) × σ
  usrProvider : String → σ → (User × Option GoError) × σ
  appProvider : Int → σ → (App × Option GoError) × σ
  tokenTTL : Int
  lib : Lib σ

/-- The method `(*Auth).RegisterNewUser(ctx, email, pass)`: the Go results `(id, err)` and
the world afterwards. -/
def Auth.RegisterNewUser {σ : Type} (a : Auth σ) (email pass : String) (w : World σ) :
    (Int × Option GoError) × World σ :=
  let op := "Auth.RegisterNewUser"
  let r₁ := w.invoke (.bcryptGenerate (bytesOf pass) bcrypt.DefaultCost)
    (a.lib.GenerateFromPassword (bytesOf pass) bcrypt.DefaultCost)
  match r₁.1.2 with
  | some err => ((0, some (fmtErrorf op err)), r₁.2)
  | none =>
    let passHash := r₁.1.1
    let r₂ := r₁.2.invoke (.usrSaver email passHash) (a.usrSaver email passHash)
    match r₂.1.2 with
    | some err => ((0, some (fmtErrorf op err)), r₂.2)
    | none => ((r₂.1.1, none), r₂.2)

/-- The method `(*Auth).Login(ctx, email, password, appID)`: the Go results `(token, err)`
and the world afterwards. -/
def Auth.Login {σ : Type} (a : Auth σ) (email password : String) (appID : Int) (w : World σ) :
    (String × Option GoError) × World σ :=
  let op := "Auth.Login"
  let r₁ := w.invoke (.usrProvider email) (a.usrProvider email)
  let user := r₁.1.1
  match r₁.1.2 with
  | some err =>
    if errorsIs err storage.ErrUserNotFound then
      (("", some (fmtErrorf op ErrInvalidCredentials)), r₁.2)
    else
      (("", some (fmtErrorf op err)), r₁.2)
  | none =>
    let r₂ := r₁.2.invoke (.bcryptCompare user.PasswordHash (bytesOf password))
      (a.lib.CompareHashAndPassword user.PasswordHash (bytesOf password))
    match r₂.1 with
    | some _ => (("", some (fmtErrorf op ErrInvalidCredentials)), r₂.2)
    | none =>
      let r₃ := r₂.2.invoke (.appProvider appID) (a.appProvider appID)
      let app := r₃.1.1
      match r₃.1.2 with
      | some err => (("", some (fmtErrorf op err)), r₃.2)
      | none =>
        let r₄ := r₃.2.invoke (.jwtNewToken user app a.tokenTTL) (a.lib.NewToken user app a.tokenTTL)
        match r₄.1.2 with
        | some err => (("", some (fmtErrorf op err)), r₄.2)
        | none => ((r₄.1.1, none), r₄.2)

/-! ## The PostgreSQL store (`internal/storage/pgsql/pgsql.go`) -/

/-- The operations of the pgx connection `Storage` uses, each with its outcome.
* `Begin`: the error of `s.db.Begin()`; with an error, pgx returns a nil `*pgx.Tx`.
* `InsertUser email passHash`: the statement
  `tx.QueryRow("INSERT INTO users(email, password_hash) VALUES($1, $2)", email, passHash).Scan(&id)`,
  giving the value `id` holds after `Scan` (it held 0 before) and the error of `Scan`.
* `Commit`, `Rollback`: the errors of `tx.Commit()` and `tx.Rollback()`.
* `SelectUser email`: `QueryRow("SELECT id, email, password_hash FROM users WHERE email = $1",
  email).Scan(&user.ID, &user.Email, &user.PasswordHash)`, giving `user` after `Scan` (it was
  the zero value before) and the error of `Scan`.
* `SelectApp id`: likewise for `SELECT id, name, secret FROM apps WHERE id = $1`. -/
structure Conn (σ : Type) where
  Begin : σ → Option GoError × σ
  InsertUser : String → Bytes → σ → (Int × Option GoError) × σ
  Commit : σ → Option GoError × σ
  Rollback : σ → Option GoError × σ
  SelectUser : String → σ → (User × Option GoError) × σ
  SelectApp : Int → σ → (App × Option GoError) × σ

/-- The struct `Storage`. -/
structure Storage (σ : Type) where
  db : Conn σ

/-- The method `(*Storage).SaveUser(ctx, email, passHash)`: `some` of the Go results and the
world afterwards, or `none` when the call panics.

The deferred `tx.Rollback()` is registered before the error of `Begin` is looked at, so it
runs on every return; its result is dropped.  When `Begin` failed, `tx` is nil: the function
reaches `return 0, fmt.Errorf(...)`, then the deferred call dereferences the nil `tx` and
panics, so nothing is returned.  The error of `Scan` is assigned to `err` and overwritten by
the one of `tx.Commit()` before it is read. -/
def Storage.SaveUser {σ : Type} (s : Storage σ) (email : String) (passHash : Bytes)
    (w : World σ) : Option ((Int × Option GoError) × World σ) :=
  let op := "storage.pgsql.SaveUser"
  let r₁ := w.invoke .dbBegin s.db.Begin
  match r₁.1 with
  | some _ => none
  | none =>
    let r₂ := r₁.2.invoke (.txInsertUser email passHash) (s.db.InsertUser email passHash)
    let id := r₂.1.1
    let r₃ := r₂.2.invoke .txCommit s.db.Commit
    match r₃.1 with
    | some err =>
      some ((0, some (fmtErrorf op err)), (r₃.2.invoke .txRollback s.db.Rollback).2)
    | none => some ((id, none), (r₃.2.invoke .txRollback s.db.Rollback).2)

/-- The method `(*Storage).User(ctx, email)`. -/
def Storage.User {σ : Type} (s : Storage σ) (email : String) (w : World σ) :
    (User × Option GoError) × World σ :=
  let op := "storage.pgsql.User"
  let r := w.invoke (.dbSelectUser email) (s.db.SelectUser email)
  let user := r.1.1
  match r.1.2 with
  | some err =>
    if errorsIs err sql.ErrNoRows then
      ((User.zero, some (fmtErrorf op storage.ErrUserNotFound)), r.2)
    else
      ((User.zero, some (fmtErrorf op err)), r.2)
  | none => ((user, none), r.2)

/-- The method `(*Storage).App(ctx, id)`. -/
def Storage.App {σ : Type} (s : Storage σ) (id : Int) (w : World σ) :
    (App × Option GoError) × World σ :=
  let op := "storage.pgsql.App"
  let r := w.invoke (.dbSelectApp id) (s.db.SelectApp id)
  let app := r.1.1
  match r.1.2 with
  | some err =>
    if errorsIs err sql.ErrNoRows then
      ((App.zero, some (fmtErrorf op storage.ErrAppNotFound)), r.2)
    else
      ((App.zero, some (fmtErrorf op err)), r.2)
  | none => ((app, none), r.2)

/-- The connection of the store is up: `Begin` returns a nil error in every state. -/
class Storage.BeginSucceeds {σ : Type} (s : Storage σ) : Prop where
  begin_ok : ∀ st, (s.db.Begin st).1 = none

/-- The wiring of `app.New`: `auth.New(log, storage, storage, storage, tokenTTL)`.  The
service's outside world is the store's world.  The capabilities of `Auth` return; the wiring
is therefore given for a store whose `Begin` succeeds, on which `SaveUser` does not panic. -/
def Auth.ofStorage {σ : Type} (s : Storage σ) [hs : s.BeginSucceeds] (tokenTTL : Int)
    (lib : Lib (World σ)) : Auth (World σ) :=
  ⟨fun email passHash w =>
      (s.SaveUser email passHash w).get (by
        simp only [Storage.SaveUser, World.invoke, hs.begin_ok]
        split <;> rfl),
    s.User, s.App, tokenTTL, lib⟩

/-! ## Vocabulary of the statements

The outcome of each step of `Login` and `RegisterNewUser`, as the collaborator returns it when
the steps before it succeeded, and the calls a run added to the world. -/

namespace Auth

variable {σ : Type}

/-- Step 1 of `Login`: the user provider's results and the state it leaves. -/
def userStep (a : Auth σ) (email : String) (s : σ) : (User × Option GoError) × σ :=
  a.usrProvider email s

/-- Step 2 of `Login`: bcrypt's verdict on the fetched hash and the supplied password. -/
def verifyStep (a : Auth σ) (email password : String) (s : σ) : Option GoError × σ :=
  a.lib.CompareHashAndPassword (a.userStep email s).1.1.PasswordHash (bytesOf password)
    (a.userStep email s).2

/-- Step 3 of `Login`: the application provider's results. -/
def appStep (a : Auth σ) (email password : String) (appID : Int) (s : σ) :
    (App × Option GoError) × σ :=
  a.appProvider appID (a.verifyStep email password s).2

/-- Step 4 of `Login`: the token issuer's results for the fetched user, the fetched
application and the configured lifetime. -/
def tokenStep (a : Auth σ) (email password : String) (appID : Int) (s : σ) :
    (String × Option GoError) × σ :=
  a.lib.NewToken (a.userStep email s).1.1 (a.appStep email password appID s).1.1 a.tokenTTL
    (a.appStep email password appID s).2

/-- Step 1 of `RegisterNewUser`: bcrypt's hash of the password. -/
def hashStep (a : Auth σ) (pass : String) (s : σ) : (Bytes × Option GoError) × σ :=
  a.lib.GenerateFromPassword (bytesOf pass) bcrypt.DefaultCost s

/-- Step 2 of `RegisterNewUser`: the user saver's results for the email and that hash. -/
def saveStep (a : Auth σ) (email pass : String) (s : σ) : (Int × Option GoError) × σ :=
  a.usrSaver email (a.hashStep pass s).1.1 (a.hashStep pass s).2

/-- The user is found and the password verifies. -/
def CredentialsVerified (a : Auth σ) (email password : String) (s : σ) : Prop :=
  (a.userStep email s).1.2 = none ∧ (a.verifyStep email password s).1 = none

/-- The user lookup fails, or the user is found and the password does not verify. -/
def CredentialsRejected (a : Auth σ) (email password : String) (s : σ) : Prop :=
  (a.userStep email s).1.2 ≠ none ∨
    ((a.userStep email s).1.2 = none ∧ (a.verifyStep email password s).1 ≠ none)

/-- The world `RegisterNewUser` leaves. -/
def afterRegister (a : Auth σ) (email pass : String) (w : World σ) : World σ :=
  (a.RegisterNewUser email pass w).2

end Auth

/-- The contract of bcrypt (spec, section 8: hashes of a password "verify successfully against
that same password"): a hash that `GenerateFromPassword` returned without error is accepted by
`CompareHashAndPassword` for the password it was made from, in whatever state. -/
def Lib.HashVerifies {σ : Type} (lib : Lib σ) : Prop :=
  ∀ password cost s s',
    (lib.GenerateFromPassword password cost s).1.2 = none →
    (lib.CompareHashAndPassword (lib.GenerateFromPassword password cost s).1.1 password s').1
      = none

/-- The calls a run added: those of `after` beyond the ones `before` already held. -/
def callsMade {σ τ : Type} (before : World σ) (after : World τ) : List Call :=
  after.calls.drop before.calls.length

/-! ## Concrete collaborators for the examples

An in-memory store with a unique email column, a toy bcrypt that keeps bcrypt's limit of 72
password bytes, and a toy issuer.  They are inputs of the closed statements below; no general
theorem depends on them. -/

namespace Fixture

/-- The tables `users(id, email UNIQUE, password_hash)` and `apps(id, name, secret)`. -/
structure Db where
  users : List User
  apps : List App
  deriving DecidableEq, Repr

/-- The error a store gives for an email it already holds. -/
def ErrUserExists : GoError := .errorString 20 "user already exists"

/-- The value `bcrypt.ErrPasswordTooLong`. -/
def ErrPasswordTooLong : GoError := .errorString 21 "bcrypt: password length exceeds 72 bytes"

/-- The value `bcrypt.ErrMismatchedHashAndPassword`. -/
def ErrMismatchedHashAndPassword : GoError :=
  .errorString 22 "crypto/bcrypt: hashedPassword is not the hash of the given password"

/-- An error of the database driver. -/
def errConnRefused : GoError :=
  .errorString 23 "dial tcp 127.0.0.1:5432: connect: connection refused"

/-- An error of the signing library. -/
def errKeyInvalid : GoError := .errorString 24 "key is invalid"

def saveUser (email : String) (passHash : Bytes) (db : Db) : (Int × Option GoError) × Db :=
  if db.users.any (fun u => u.Email = email) then ((0, some ErrUserExists), db)
  else ((db.users.length + 1, none),
    ⟨db.users ++ [⟨db.users.length + 1, email, passHash⟩], db.apps⟩)

def user (email : String) (db : Db) : (User × Option GoError) × Db :=
  match db.users.find? (fun u => u.Email = email) with
  | some u => ((u, none), db)
  | none => ((User.zero, some storage.ErrUserNotFound), db)

def app (id : Int) (db : Db) : (App × Option GoError) × Db :=
  match db.apps.find? (fun p => p.ID = id) with
  | some p => ((p, none), db)
  | none => ((App.zero, some storage.ErrAppNotFound), db)

def generateFromPassword {σ : Type} (password : Bytes) (_cost : Int) (s : σ) :
    (Bytes × Option GoError) × σ :=
  if password.length > 72 then (([], some ErrPasswordTooLong), s)
  else ((36 :: password, none), s)

def compareHashAndPassword {σ : Type} (hashedPassword password : Bytes) (s : σ) :
    Option GoError × σ :=
  (if hashedPassword = 36 :: password then none else some ErrMismatchedHashAndPassword, s)

def newToken {σ : Type} (u : User) (p : App) (_ttl : Int) (s : σ) :
    (String × Option GoError) × σ :=
  if p.Secret = "" then (("", some errKeyInvalid), s)
  else ((u.Email ++ "|" ++ p.Name ++ "|" ++ p.Secret, none), s)

def lib {σ : Type} : Lib σ := ⟨generateFromPassword, compareHashAndPassword, newToken⟩

/-- The service over the in-memory store, tokens living one hour. -/
def auth : Auth Db := ⟨saveUser, user, app, 3600000000000, lib⟩

/-- One registered user, password `secret123`, and two applications, the second without a
signing secret. -/
def db : Db :=
  ⟨[⟨1, "a@x.com", 36 :: bytesOf "secret123"⟩], [⟨1, "app", "s3cr3t"⟩, ⟨2, "legacy", ""⟩]⟩

def world : World Db := ⟨db, []⟩

/-- A user provider whose database is down. -/
def authDbDown : Auth Db :=
  ⟨saveUser, fun _ d => ((User.zero, some errConnRefused), d), app, 3600000000000, lib⟩

/-- An application provider that answers with the credentials sentinel. -/
def authAppDenied : Auth Db :=
  ⟨saveUser, user, fun _ d => ((App.zero, some ErrInvalidCredentials), d), 3600000000000, lib⟩

/-- The error PostgreSQL gives for an INSERT that breaks the unique constraint on email. -/
def errUniqueViolation : GoError :=
  .errorString 30
    "ERROR: duplicate key value violates unique constraint users_email_key (SQLSTATE 23505)"

/-- The error PostgreSQL gives for an INSERT that breaks a not-null constraint. -/
def errNotNullViolation : GoError :=
  .errorString 31 "ERROR: null value in column password_hash (SQLSTATE 23502)"

/-- The value `pgx.ErrTxCommitRollback`. -/
def ErrTxCommitRollback : GoError := .errorString 32 "commit unexpectedly resulted in rollback"

/-- The value `pgx.ErrTxClosed`. -/
def ErrTxClosed : GoError := .errorString 33 "tx is closed"

/-- A connection with fixed answers: the error of `Begin`, the outcome of the INSERT and its
`Scan`, the error of `Commit`, and the outcomes of the two SELECTs with their `Scan`. -/
def conn (beginErr : Option GoError) (insert : Int × Option GoError)
    (commitErr : Option GoError) (selectUser : User × Option GoError)
    (selectApp : App × Option GoError) : Conn Unit :=
  ⟨fun s => (beginErr, s), fun _ _ s => (insert, s), fun s => (commitErr, s),
    fun s => (some ErrTxClosed, s), fun _ s => (selectUser, s), fun _ s => (selectApp, s)⟩

/-- A store whose INSERT fails with `insertErr` (leaving `id` at 0), whose `Commit` returns
`commitErr`, and whose tables have no row for the email and the id asked for. -/
def storage (insertErr commitErr : Option GoError) : Storage Unit :=
  ⟨conn none (0, insertErr) commitErr (User.zero, some pgx.ErrNoRows)
    (App.zero, some pgx.ErrNoRows)⟩

instance (insertErr commitErr : Option GoError) : (storage insertErr commitErr).BeginSucceeds :=
  ⟨fun _ => rfl⟩

/-- A store that holds the user b@x.com under ID 2 and application 1; its INSERT stores the
row, and `Scan` finds no row to read the new ID from. -/
def storageLive : Storage Unit :=
  ⟨conn none (0, some pgx.ErrNoRows) none (⟨2, "b@x.com", 36 :: bytesOf "hunter2"⟩, none)
    (⟨1, "app", "s3cr3t"⟩, none)⟩

instance : storageLive.BeginSucceeds := ⟨fun _ => rfl⟩

/-- A store whose connection is down: `Begin` fails. -/
def storageDown : Storage Unit :=
  ⟨conn (some errConnRefused) (0, none) none (User.zero, some errConnRefused)
    (App.zero, some errConnRefused)⟩

/-- The world of a service wired to a store: nothing called yet on either level. -/
def world₀ : World (World Unit) := ⟨⟨(), []⟩, []⟩

end Fixture

/-! ## Lemmas: errors -/

theorem errorsIs_self (e : GoError) : errorsIs e e = true := by
  cases e <;> simp [errorsIs]

theorem errorsIs_fmtErrorf_self (op : String) (e : GoError) :
    errorsIs (fmtErrorf op e) e = true := by
  simp [fmtErrorf, errorsIs, errorsIs_self]

theorem errorsIs_fmtErrorf_errorString (op : String) (e : GoError) (ptr : Nat) (s : String) :
    errorsIs (fmtErrorf op e) (.errorString ptr s) = errorsIs e (.errorString ptr s) := by
  simp [fmtErrorf, errorsIs]

/-! ## Lemmas: the paths of `Login` -/

section LoginPaths

variable {σ : Type} (a : Auth σ) (email password : String) (appID : Int) (w : World σ)

theorem login_user_not_found (e : GoError) (h : (a.userStep email w.st).1.2 = some e)
    (hIs : errorsIs e storage.ErrUserNotFound = true) :
    a.Login email password appID w =
      (("", some (fmtErrorf "Auth.Login" ErrInvalidCredentials)),
        ⟨(a.userStep email w.st).2, w.calls ++ [.usrProvider email]⟩) := by
  simp only [Auth.userStep] at h
  simp [Auth.Login, World.invoke, Auth.userStep, h, hIs]

theorem login_user_error (e : GoError) (h : (a.userStep email w.st).1.2 = some e)
    (hIs : errorsIs e storage.ErrUserNotFound = false) :
    a.Login email password appID w =
      (("", some (fmtErrorf "Auth.Login" e)),
        ⟨(a.userStep email w.st).2, w.calls ++ [.usrProvider email]⟩) := by
  simp only [Auth.userStep] at h
  simp [Auth.Login, World.invoke, Auth.userStep, h, hIs]

theorem login_wrong_password (e : GoError) (h₁ : (a.userStep email w.st).1.2 = none)
    (h₂ : (a.verifyStep email password w.st).1 = some e) :
    a.Login email password appID w =
      (("", some (fmtErrorf "Auth.Login" ErrInvalidCredentials)),
        ⟨(a.verifyStep email password w.st).2,
          w.calls ++ [.usrProvider email,
            .bcryptCompare (a.userStep email w.st).1.1.PasswordHash (bytesOf password)]⟩) := by
  simp only [Auth.userStep, Auth.verifyStep] at h₁ h₂
  simp [Auth.Login, World.invoke, Auth.userStep, Auth.verifyStep, h₁, h₂]

theorem login_app_error (e : GoError) (h₁ : (a.userStep email w.st).1.2 = none)
    (h₂ : (a.verifyStep email password w.st).1 = none)
    (h₃ : (a.appStep email password appID w.st).1.2 = some e) :
    a.Login email password appID w =
      (("", some (fmtErrorf "Auth.Login" e)),
        ⟨(a.appStep email password appID w.st).2,
          w.calls ++ [.usrProvider email,
            .bcryptCompare (a.userStep email w.st).1.1.PasswordHash (bytesOf password),
            .appProvider appID]⟩) := by
  simp only [Auth.userStep, Auth.verifyStep, Auth.appStep] at h₁ h₂ h₃
  simp [Auth.Login, World.invoke, Auth.userStep, Auth.verifyStep, Auth.appStep, h₁, h₂, h₃]

theorem login_token_error (e : GoError) (h₁ : (a.userStep email w.st).1.2 = none)
    (h₂ : (a.verifyStep email password w.st).1 = none)
    (h₃ : (a.appStep email password appID w.st).1.2 = none)
    (h₄ : (a.tokenStep email password appID w.st).1.2 = some e) :
    a.Login email password appID w =
      (("", some (fmtErrorf "Auth.Login" e)),
        ⟨(a.tokenStep email password appID w.st).2,
          w.calls ++ [.usrProvider email,
            .bcryptCompare (a.userStep email w.st).1.1.PasswordHash (bytesOf password),
            .appProvider appID,
            .jwtNewToken (a.userStep email w.st).1.1 (a.appStep email password appID w.st).1.1
              a.tokenTTL]⟩) := by
  simp only [Auth.userStep, Auth.verifyStep, Auth.appStep, Auth.tokenStep] at h₁ h₂ h₃ h₄
  simp [Auth.Login, World.invoke, Auth.userStep, Auth.verifyStep, Auth.appStep, Auth.tokenStep,
    h₁, h₂, h₃, h₄]

theorem login_success (h₁ : (a.userStep email w.st).1.2 = none)
    (h₂ : (a.verifyStep email password w.st).1 = none)
    (h₃ : (a.appStep email password appID w.st).1.2 = none)
    (h₄ : (a.tokenStep email password appID w.st).1.2 = none) :
    a.Login email password appID w =
      (((a.tokenStep email password appID w.st).1.1, none),
        ⟨(a.tokenStep email password appID w.st).2,
          w.calls ++ [.usrProvider email,
            .bcryptCompare (a.userStep email w.st).1.1.PasswordHash (bytesOf password),
            .appProvider appID,
            .jwtNewToken (a.userStep email w.st).1.1 (a.appStep email password appID w.st).1.1
              a.tokenTTL]⟩) := by
  simp only [Auth.userStep, Auth.verifyStep, Auth.appStep, Auth.tokenStep] at h₁ h₂ h₃ h₄
  simp [Auth.Login, World.invoke, Auth.userStep, Auth.verifyStep, Auth.appStep, Auth.tokenStep,
    h₁, h₂, h₃, h₄]

end LoginPaths

/-! ## Lemmas: the paths of `RegisterNewUser` -/

section RegisterPaths

variable {σ : Type} (a : Auth σ) (email pass : String) (w : World σ)

theorem register_hash_error (e : GoError) (h : (a.hashStep pass w.st).1.2 = some e) :
    a.RegisterNewUser email pass w =
      ((0, some (fmtErrorf "Auth.RegisterNewUser" e)),
        ⟨(a.hashStep pass w.st).2,
          w.calls ++ [.bcryptGenerate (bytesOf pass) bcrypt.DefaultCost]⟩) := by
  simp only [Auth.hashStep] at h
  simp [Auth.RegisterNewUser, World.invoke, Auth.hashStep, h]

theorem register_save_error (e : GoError) (h₁ : (a.hashStep pass w.st).1.2 = none)
    (h₂ : (a.saveStep email pass w.st).1.2 = some e) :
    a.RegisterNewUser email pass w =
      ((0, some (fmtErrorf "Auth.RegisterNewUser" e)),
        ⟨(a.saveStep email pass w.st).2,
          w.calls ++ [.bcryptGenerate (bytesOf pass) bcrypt.DefaultCost,
            .usrSaver email (a.hashStep pass w.st).1.1]⟩) := by
  simp only [Auth.hashStep, Auth.saveStep] at h₁ h₂
  simp [Auth.RegisterNewUser, World.invoke, Auth.hashStep, Auth.saveStep, h₁, h₂]

theorem register_success (h₁ : (a.hashStep pass w.st).1.2 = none)
    (h₂ : (a.saveStep email pass w.st).1.2 = none) :
    a.RegisterNewUser email pass w =
      (((a.saveStep email pass w.st).1.1, none),
        ⟨(a.saveStep email pass w.st).2,
          w.calls ++ [.bcryptGenerate (bytesOf pass) bcrypt.DefaultCost,
            .usrSaver email (a.hashStep pass w.st).1.1]⟩) := by
  simp only [Auth.hashStep, Auth.saveStep] at h₁ h₂
  simp [Auth.RegisterNewUser, World.invoke, Auth.hashStep, Auth.saveStep, h₁, h₂]

end RegisterPaths

/-! ## Login: credential failures -/

/-- C1: when the user provider reports `storage.ErrUserNotFound` (first run), and when the
user is found but bcrypt rejects the password (second run), `Login` returns the empty token
and one and the same error value: it matches `ErrInvalidCredentials` under `errors.Is` and
its message is "Auth.Login: invalid credentials". -/
theorem login_unknown_user_and_wrong_password_same_error {σ τ : Type}
    (a₁ : Auth σ) (email₁ password₁ : String) (appID₁ : Int) (w₁ : World σ)
    (a₂ : Auth τ) (email₂ password₂ : String) (appID₂ : Int) (w₂ : World τ)
    (e₁ e₂ : GoError)
    (hUnknown : (a₁.userStep email₁ w₁.st).1.2 = some e₁ ∧
      errorsIs e₁ storage.ErrUserNotFound = true)
    (hWrong : (a₂.userStep email₂ w₂.st).1.2 = none ∧
      (a₂.verifyStep email₂ password₂ w₂.st).1 = some e₂) :
    ∃ err : GoError,
      (a₁.Login email₁ password₁ appID₁ w₁).1 = ("", some err) ∧
      (a₂.Login email₂ password₂ appID₂ w₂).1 = ("", some err) ∧
      errorsIs err ErrInvalidCredentials = true ∧
      err.Error = "Auth.Login: invalid credentials" := by
  refine ⟨fmtErrorf "Auth.Login" ErrInvalidCredentials, ?_, ?_, ?_, ?_⟩
  · rw [login_user_not_found a₁ email₁ password₁ appID₁ w₁ e₁ hUnknown.1 hUnknown.2]
  · rw [login_wrong_password a₂ email₂ password₂ appID₂ w₂ e₂ hWrong.1 hWrong.2]
  · exact errorsIs_fmtErrorf_self _ _
  · decide

/-- Witness of C1: an unknown email and a wrong password against the in-memory store. -/
theorem login_unknown_user_and_wrong_password_same_error_witness :
    ((Fixture.auth.userStep "nouser@x.com" Fixture.world.st).1.2 = some storage.ErrUserNotFound ∧
      errorsIs storage.ErrUserNotFound storage.ErrUserNotFound = true) ∧
    ((Fixture.auth.userStep "a@x.com" Fixture.world.st).1.2 = none ∧
      (Fixture.auth.verifyStep "a@x.com" "wrong" Fixture.world.st).1 =
        some Fixture.ErrMismatchedHashAndPassword) ∧
    ∃ err : GoError,
      (Fixture.auth.Login "nouser@x.com" "x" 1 Fixture.world).1 = ("", some err) ∧
      (Fixture.auth.Login "a@x.com" "wrong" 1 Fixture.world).1 = ("", some err) ∧
      errorsIs err ErrInvalidCredentials = true ∧
      err.Error = "Auth.Login: invalid credentials" :=
  ⟨by decide, by decide,
    login_unknown_user_and_wrong_password_same_error
      Fixture.auth "nouser@x.com" "x" 1 Fixture.world
      Fixture.auth "a@x.com" "wrong" 1 Fixture.world
      storage.ErrUserNotFound Fixture.ErrMismatchedHashAndPassword (by decide) (by decide)⟩

/-- C3: when the user lookup fails or the password does not verify, `Login` invokes neither
the application provider nor the token issuer, returns the empty token and an error, and
its results and final world are the same for any two application IDs and any two services
that share the user provider and the password check (they may differ in the application
provider, the token issuer, the user saver and the lifetime). -/
theorem login_rejected_credentials_ignore_application {σ : Type}
    (a₁ a₂ : Auth σ) (email password : String) (appID₁ appID₂ : Int) (w : World σ)
    (hUser : a₁.usrProvider = a₂.usrProvider)
    (hCmp : a₁.lib.CompareHashAndPassword = a₂.lib.CompareHashAndPassword)
    (hRej : a₁.CredentialsRejected email password w.st) :
    a₁.Login email password appID₁ w = a₂.Login email password appID₂ w ∧
    (a₁.Login email password appID₁ w).1.1 = "" ∧
    (a₁.Login email password appID₁ w).1.2 ≠ none ∧
    ∀ c ∈ callsMade w (a₁.Login email password appID₁ w).2,
      (∀ id, c ≠ .appProvider id) ∧ (∀ u p t, c ≠ .jwtNewToken u p t) := by
  have hU : ∀ s, a₂.userStep email s = a₁.userStep email s := by
    intro s; simp [Auth.userStep, hUser]
  have hV : ∀ s, a₂.verifyStep email password s = a₁.verifyStep email password s := by
    intro s; simp [Auth.verifyStep, Auth.userStep, hUser, hCmp]
  rcases hRej with hErr | ⟨hOk, hBad⟩
  · cases he : (a₁.userStep email w.st).1.2 with
    | none => exact absurd he hErr
    | some e =>
    cases hIs : errorsIs e storage.ErrUserNotFound
    · rw [login_user_error a₁ email password appID₁ w e he hIs,
        login_user_error a₂ email password appID₂ w e (by rw [hU]; exact he) hIs, hU]
      simp [callsMade]
    · rw [login_user_not_found a₁ email password appID₁ w e he hIs,
        login_user_not_found a₂ email password appID₂ w e (by rw [hU]; exact he) hIs, hU]
      simp [callsMade]
  · cases he : (a₁.verifyStep email password w.st).1 with
    | none => exact absurd he hBad
    | some e =>
    rw [login_wrong_password a₁ email password appID₁ w e hOk he,
      login_wrong_password a₂ email password appID₂ w e (by rw [hU]; exact hOk)
        (by rw [hV]; exact he), hU, hV]
    simp [callsMade]

/-- Witness of C3: a wrong password against the in-memory store, once with the store's
application provider and application 1, once with a failing provider and application 999. -/
theorem login_rejected_credentials_ignore_application_witness :
    Fixture.auth.CredentialsRejected "a@x.com" "wrong" Fixture.world.st ∧
    Fixture.auth.Login "a@x.com" "wrong" 1 Fixture.world =
      Fixture.authAppDenied.Login "a@x.com" "wrong" 999 Fixture.world ∧
    (Fixture.auth.Login "a@x.com" "wrong" 1 Fixture.world).1.1 = "" ∧
    (Fixture.auth.Login "a@x.com" "wrong" 1 Fixture.world).1.2 ≠ none ∧
    ∀ c ∈ callsMade Fixture.world (Fixture.auth.Login "a@x.com" "wrong" 1 Fixture.world).2,
      (∀ id, c ≠ .appProvider id) ∧ (∀ u p t, c ≠ .jwtNewToken u p t) :=
  ⟨Or.inr (by decide),
    login_rejected_credentials_ignore_application Fixture.auth Fixture.authAppDenied
      "a@x.com" "wrong" 1 999 Fixture.world rfl rfl (Or.inr (by decide))⟩

/-- C8: `Login` either fails with the empty token or succeeds with the issuer's token.  The
error is nil exactly when all four steps (user lookup, password check, application lookup,
token issuance) returned a nil error, and then the token is the issuer's output; otherwise
the token is the empty string.  On no path is the user saver invoked, and replacing the user
saver by any other changes neither the results nor the final world. -/
theorem login_all_or_nothing {σ : Type} (a : Auth σ) (email password : String) (appID : Int)
    (w : World σ) :
    ((a.Login email password appID w).1.2 ≠ none → (a.Login email password appID w).1.1 = "") ∧
    ((a.Login email password appID w).1.2 = none ↔
      (a.CredentialsVerified email password w.st ∧
        (a.appStep email password appID w.st).1.2 = none ∧
        (a.tokenStep email password appID w.st).1.2 = none)) ∧
    ((a.Login email password appID w).1.2 = none →
      (a.Login email password appID w).1.1 = (a.tokenStep email password appID w.st).1.1) ∧
    (∀ c ∈ callsMade w (a.Login email password appID w).2, ∀ e h, c ≠ .usrSaver e h) ∧
    (∀ saver, (Auth.mk saver a.usrProvider a.appProvider a.tokenTTL a.lib).Login
      email password appID w = a.Login email password appID w) := by
  refine ⟨?_, ?_, ?_, ?_, fun _ => rfl⟩
  all_goals
    cases h₁ : (a.userStep email w.st).1.2 with
    | some e₁ =>
      cases hIs : errorsIs e₁ storage.ErrUserNotFound
      · rw [login_user_error a email password appID w e₁ h₁ hIs]
        simp [Auth.CredentialsVerified, h₁, callsMade]
      · rw [login_user_not_found a email password appID w e₁ h₁ hIs]
        simp [Auth.CredentialsVerified, h₁, callsMade]
    | none =>
      cases h₂ : (a.verifyStep email password w.st).1 with
      | some e₂ =>
        rw [login_wrong_password a email password appID w e₂ h₁ h₂]
        simp [Auth.CredentialsVerified, h₁, h₂, callsMade]
      | none =>
        cases h₃ : (a.appStep email password appID w.st).1.2 with
        | some e₃ =>
          rw [login_app_error a email password appID w e₃ h₁ h₂ h₃]
          simp [Auth.CredentialsVerified, h₁, h₂, callsMade]
        | none =>
          cases h₄ : (a.tokenStep email password appID w.st).1.2 with
          | some e₄ =>
            rw [login_token_error a email password appID w e₄ h₁ h₂ h₃ h₄]
            simp [Auth.CredentialsVerified, h₁, h₂, callsMade]
          | none =>
            rw [login_success a email password appID w h₁ h₂ h₃ h₄]
            simp [Auth.CredentialsVerified, h₁, h₂, callsMade]

/-! ## RegisterNewUser: errors -/

/-- C6: when password hashing returns the error `e`, or hashing succeeds and the user saver
returns the error `e`, `RegisterNewUser` returns ID 0 and an error whose message is
"Auth.RegisterNewUser: " followed by the message of `e`, which unwraps to `e` and matches
`e` under `errors.Is`. -/
theorem registerNewUser_wraps_cause {σ : Type} (a : Auth σ) (email pass : String)
    (w : World σ) (e : GoError)
    (h : (a.hashStep pass w.st).1.2 = some e ∨
      ((a.hashStep pass w.st).1.2 = none ∧ (a.saveStep email pass w.st).1.2 = some e)) :
    ∃ r : GoError,
      (a.RegisterNewUser email pass w).1 = (0, some r) ∧
      r.Error = "Auth.RegisterNewUser: " ++ e.Error ∧
      r.Unwrap = some e ∧
      errorsIs r e = true := by
  refine ⟨fmtErrorf "Auth.RegisterNewUser" e, ?_, ?_, rfl, errorsIs_fmtErrorf_self _ _⟩
  · rcases h with h | ⟨h₁, h₂⟩
    · rw [register_hash_error a email pass w e h]
    · rw [register_save_error a email pass w e h₁ h₂]
  · simp [fmtErrorf, GoError.Error]

/-- Witness of C6: a password of 73 bytes, which the toy bcrypt refuses, and an email the
in-memory store already holds. -/
theorem registerNewUser_wraps_cause_witness :
    ((Fixture.auth.hashStep (String.mk (List.replicate 73 (Char.ofNat 97))) Fixture.world.st).1.2
        = some Fixture.ErrPasswordTooLong ∧
      ∃ r : GoError,
        (Fixture.auth.RegisterNewUser "b@x.com" (String.mk (List.replicate 73 (Char.ofNat 97)))
          Fixture.world).1 = (0, some r) ∧
        r.Error = "Auth.RegisterNewUser: " ++ Fixture.ErrPasswordTooLong.Error ∧
        r.Unwrap = some Fixture.ErrPasswordTooLong ∧
        errorsIs r Fixture.ErrPasswordTooLong = true) ∧
    (((Fixture.auth.hashStep "secret123" Fixture.world.st).1.2 = none ∧
        (Fixture.auth.saveStep "a@x.com" "secret123" Fixture.world.st).1.2
          = some Fixture.ErrUserExists) ∧
      ∃ r : GoError,
        (Fixture.auth.RegisterNewUser "a@x.com" "secret123" Fixture.world).1 = (0, some r) ∧
        r.Error = "Auth.RegisterNewUser: " ++ Fixture.ErrUserExists.Error ∧
        r.Unwrap = some Fixture.ErrUserExists ∧
        errorsIs r Fixture.ErrUserExists = true) :=
  ⟨⟨by decide, registerNewUser_wraps_cause Fixture.auth "b@x.com" _ Fixture.world
      Fixture.ErrPasswordTooLong (Or.inl (by decide))⟩,
    ⟨by decide, registerNewUser_wraps_cause Fixture.auth "a@x.com" "secret123" Fixture.world
      Fixture.ErrUserExists (Or.inr (by decide))⟩⟩

/-! ## Login: errors of the collaborators -/

/-- Counterexample to C2: the user is found, the password verifies, and the application
provider fails with an error that is the credentials sentinel; `Login` hands it on, so the
returned error does match `ErrInvalidCredentials`. -/
theorem login_app_error_may_match_invalid_credentials :
    Fixture.authAppDenied.CredentialsVerified "a@x.com" "secret123" Fixture.world.st ∧
    (Fixture.authAppDenied.appStep "a@x.com" "secret123" 999 Fixture.world.st).1.2
      = some ErrInvalidCredentials ∧
    (Fixture.authAppDenied.Login "a@x.com" "secret123" 999 Fixture.world).1
      = ("", some (fmtErrorf "Auth.Login" ErrInvalidCredentials)) ∧
    errorsIs (fmtErrorf "Auth.Login" ErrInvalidCredentials) ErrInvalidCredentials = true := by
  refine ⟨⟨by decide, by decide⟩, by decide, by decide, by decide⟩

/-- C2, amended: when the user is found, the password verifies and the application provider
returns the error `e`, `Login` returns the empty token and `e` wrapped as "Auth.Login: ..."
(no separate kind is made); the result matches `e` under `errors.Is`, and it matches
`ErrInvalidCredentials` exactly when `e` itself does. -/
theorem login_app_error_passed_through {σ : Type} (a : Auth σ) (email password : String)
    (appID : Int) (w : World σ) (e : GoError)
    (hCred : a.CredentialsVerified email password w.st)
    (hApp : (a.appStep email password appID w.st).1.2 = some e) :
    (a.Login email password appID w).1 = ("", some (fmtErrorf "Auth.Login" e)) ∧
    errorsIs (fmtErrorf "Auth.Login" e) e = true ∧
    errorsIs (fmtErrorf "Auth.Login" e) ErrInvalidCredentials
      = errorsIs e ErrInvalidCredentials := by
  refine ⟨?_, errorsIs_fmtErrorf_self _ _, errorsIs_fmtErrorf_errorString _ _ _ _⟩
  rw [login_app_error a email password appID w e hCred.1 hCred.2 hApp]

/-- Witness of C2, amended: application 999 is unknown to the in-memory store. -/
theorem login_app_error_passed_through_witness :
    Fixture.auth.CredentialsVerified "a@x.com" "secret123" Fixture.world.st ∧
    (Fixture.auth.appStep "a@x.com" "secret123" 999 Fixture.world.st).1.2
      = some storage.ErrAppNotFound ∧
    ((Fixture.auth.Login "a@x.com" "secret123" 999 Fixture.world).1
        = ("", some (fmtErrorf "Auth.Login" storage.ErrAppNotFound)) ∧
      errorsIs (fmtErrorf "Auth.Login" storage.ErrAppNotFound) storage.ErrAppNotFound = true ∧
      errorsIs (fmtErrorf "Auth.Login" storage.ErrAppNotFound) ErrInvalidCredentials
        = errorsIs storage.ErrAppNotFound ErrInvalidCredentials) :=
  ⟨⟨by decide, by decide⟩, by decide,
    login_app_error_passed_through Fixture.auth "a@x.com" "secret123" 999 Fixture.world
      storage.ErrAppNotFound ⟨by decide, by decide⟩ (by decide)⟩

/-- Counterexample to C7: the user provider fails with a driver error that is not the
not-found condition; the error `Login` returns carries the driver's text in its message and
unwraps to the driver's error. -/
theorem login_exposes_driver_error :
    (Fixture.authDbDown.userStep "a@x.com" Fixture.world.st).1.2 = some Fixture.errConnRefused ∧
    errorsIs Fixture.errConnRefused storage.ErrUserNotFound = false ∧
    (Fixture.authDbDown.Login "a@x.com" "secret123" 1 Fixture.world).1
      = ("", some (.wrapError "Auth.Login: dial tcp 127.0.0.1:5432: connect: connection refused"
          Fixture.errConnRefused)) ∧
    (GoError.wrapError "Auth.Login: dial tcp 127.0.0.1:5432: connect: connection refused"
      Fixture.errConnRefused).Unwrap = some Fixture.errConnRefused ∧
    errorsIs (.wrapError "Auth.Login: dial tcp 127.0.0.1:5432: connect: connection refused"
      Fixture.errConnRefused) Fixture.errConnRefused = true := by
  refine ⟨by decide, by decide, by decide, by decide, by decide⟩

/-- C7, amended: an error `e` of the user provider that is not the not-found condition, an
error `e` of the application provider and an error `e` of the token issuer all reach the
caller: `Login` returns the empty token and an error whose message is "Auth.Login: "
followed by the message of `e`, which unwraps to `e` and matches `e` under `errors.Is`. -/
theorem login_wraps_collaborator_error {σ : Type} (a : Auth σ) (email password : String)
    (appID : Int) (w : World σ) (e : GoError)
    (h : ((a.userStep email w.st).1.2 = some e ∧ errorsIs e storage.ErrUserNotFound = false) ∨
      (a.CredentialsVerified email password w.st ∧
        (a.appStep email password appID w.st).1.2 = some e) ∨
      (a.CredentialsVerified email password w.st ∧
        (a.appStep email password appID w.st).1.2 = none ∧
        (a.tokenStep email password appID w.st).1.2 = some e)) :
    ∃ r : GoError,
      (a.Login email password appID w).1 = ("", some r) ∧
      r.Error = "Auth.Login: " ++ e.Error ∧
      r.Unwrap = some e ∧
      errorsIs r e = true := by
  refine ⟨fmtErrorf "Auth.Login" e, ?_, ?_, rfl, errorsIs_fmtErrorf_self _ _⟩
  · rcases h with ⟨h₁, hIs⟩ | ⟨hCred, h₃⟩ | ⟨hCred, h₃, h₄⟩
    · rw [login_user_error a email password appID w e h₁ hIs]
    · rw [login_app_error a email password appID w e hCred.1 hCred.2 h₃]
    · rw [login_token_error a email password appID w e hCred.1 hCred.2 h₃ h₄]
  · simp [fmtErrorf, GoError.Error]

/-- Witness of C7, amended: a database that is down, an unknown application, and an
application without a signing secret. -/
theorem login_wraps_collaborator_error_witness :
    (((Fixture.authDbDown.userStep "a@x.com" Fixture.world.st).1.2 = some Fixture.errConnRefused ∧
        errorsIs Fixture.errConnRefused storage.ErrUserNotFound = false) ∧
      ∃ r : GoError,
        (Fixture.authDbDown.Login "a@x.com" "secret123" 1 Fixture.world).1 = ("", some r) ∧
        r.Error = "Auth.Login: " ++ Fixture.errConnRefused.Error ∧
        r.Unwrap = some Fixture.errConnRefused ∧
        errorsIs r Fixture.errConnRefused = true) ∧
    ((Fixture.auth.CredentialsVerified "a@x.com" "secret123" Fixture.world.st ∧
        (Fixture.auth.appStep "a@x.com" "secret123" 999 Fixture.world.st).1.2
          = some storage.ErrAppNotFound) ∧
      ∃ r : GoError,
        (Fixture.auth.Login "a@x.com" "secret123" 999 Fixture.world).1 = ("", some r) ∧
        r.Error = "Auth.Login: " ++ storage.ErrAppNotFound.Error ∧
        r.Unwrap = some storage.ErrAppNotFound ∧
        errorsIs r storage.ErrAppNotFound = true) ∧
    ((Fixture.auth.CredentialsVerified "a@x.com" "secret123" Fixture.world.st ∧
        (Fixture.auth.appStep "a@x.com" "secret123" 2 Fixture.world.st).1.2 = none ∧
        (Fixture.auth.tokenStep "a@x.com" "secret123" 2 Fixture.world.st).1.2
          = some Fixture.errKeyInvalid) ∧
      ∃ r : GoError,
        (Fixture.auth.Login "a@x.com" "secret123" 2 Fixture.world).1 = ("", some r) ∧
        r.Error = "Auth.Login: " ++ Fixture.errKeyInvalid.Error ∧
        r.Unwrap = some Fixture.errKeyInvalid ∧
        errorsIs r Fixture.errKeyInvalid = true) :=
  ⟨⟨⟨by decide, by decide⟩,
      login_wraps_collaborator_error Fixture.authDbDown "a@x.com" "secret123" 1 Fixture.world
        Fixture.errConnRefused (Or.inl ⟨by decide, by decide⟩)⟩,
    ⟨⟨⟨by decide, by decide⟩, by decide⟩,
      login_wraps_collaborator_error Fixture.auth "a@x.com" "secret123" 999 Fixture.world
        storage.ErrAppNotFound (Or.inr (Or.inl ⟨⟨by decide, by decide⟩, by decide⟩))⟩,
    ⟨⟨⟨by decide, by decide⟩, by decide, by decide⟩,
      login_wraps_collaborator_error Fixture.auth "a@x.com" "secret123" 2 Fixture.world
        Fixture.errKeyInvalid
        (Or.inr (Or.inr ⟨⟨by decide, by decide⟩, by decide, by decide⟩))⟩⟩

/-! ## Register, then login -/

/-- The toy bcrypt keeps the contract of bcrypt. -/
theorem Fixture.lib_hashVerifies {σ : Type} : (Fixture.lib : Lib σ).HashVerifies := by
  intro password cost s s' h
  simp only [Fixture.lib, Fixture.generateFromPassword] at h ⊢
  split at h
  · simp at h
  · rename_i hlen
    simp [Fixture.compareHashAndPassword, hlen]

/-- Counterexample to C4: a non-empty email the store does not hold, so that the store accepts
the insert whatever the hash, and a non-empty password of 73 bytes.  Hashing fails and
`RegisterNewUser` returns ID 0 and the wrapped hashing error, without calling the store.
Second, b@x.com registers with the password hunter2, the store then returns the saved record,
and the application provider knows application 2, whose signing secret is empty: the issuer
fails and `Login` returns the empty token and the issuer's error wrapped. -/
theorem registerNewUser_fails_when_hashing_fails :
    "b@x.com" ≠ "" ∧ String.mk (List.replicate 73 (Char.ofNat 97)) ≠ "" ∧
    (∀ passHash, (Fixture.auth.usrSaver "b@x.com" passHash Fixture.world.st).1.2 = none) ∧
    (Fixture.auth.RegisterNewUser "b@x.com" (String.mk (List.replicate 73 (Char.ofNat 97)))
      Fixture.world).1 = (0, some (fmtErrorf "Auth.RegisterNewUser" Fixture.ErrPasswordTooLong)) ∧
    callsMade Fixture.world
      (Fixture.auth.RegisterNewUser "b@x.com" (String.mk (List.replicate 73 (Char.ofNat 97)))
        Fixture.world).2
      = [.bcryptGenerate (List.replicate 73 97) bcrypt.DefaultCost] ∧
    (Fixture.auth.RegisterNewUser "b@x.com" "hunter2" Fixture.world).1 = (2, none) ∧
    (Fixture.auth.userStep "b@x.com"
        (Fixture.auth.afterRegister "b@x.com" "hunter2" Fixture.world).st).1
      = (⟨2, "b@x.com", (Fixture.auth.hashStep "hunter2" Fixture.world.st).1.1⟩, none) ∧
    (Fixture.auth.appStep "b@x.com" "hunter2" 2
        (Fixture.auth.afterRegister "b@x.com" "hunter2" Fixture.world).st).1
      = (⟨2, "legacy", ""⟩, none) ∧
    (Fixture.auth.Login "b@x.com" "hunter2" 2
        (Fixture.auth.afterRegister "b@x.com" "hunter2" Fixture.world)).1
      = ("", some (fmtErrorf "Auth.Login" Fixture.errKeyInvalid)) := by
  refine ⟨by decide, by decide, fun _ => rfl, by decide, by decide, by decide, by decide,
    by decide, by decide⟩

/-- C4, amended.  Registration: `RegisterNewUser` succeeds exactly when password hashing
succeeds and the store accepts the insert, and then returns the ID the store returned; when
hashing fails it returns ID 0 and the hashing error wrapped, and the store is not called.

Login after it: let `RegisterNewUser` succeed, let the user provider, in the world
`RegisterNewUser` leaves, find a record whose password hash is the one `RegisterNewUser`
generated from the password (under whatever ID), and let the application provider return an
application for the supplied ID.  Then the password check of `Login` passes under the
contract of bcrypt; if it is rejected, `Login` returns the credentials error; if it passes,
`Login` calls the issuer once, for the fetched record, the returned application and the
configured lifetime, and returns the issuer's token with a nil error when the issuer
succeeds, and the empty token with the issuer's error wrapped when it fails. -/
theorem register_then_login {σ : Type} (a : Auth σ) (email password : String) (appID : Int)
    (w : World σ) :
    ((a.RegisterNewUser email password w).1.2 = none ↔
      ((a.hashStep password w.st).1.2 = none ∧ (a.saveStep email password w.st).1.2 = none)) ∧
    ((a.RegisterNewUser email password w).1.2 = none →
      (a.RegisterNewUser email password w).1.1 = (a.saveStep email password w.st).1.1) ∧
    (∀ e, (a.hashStep password w.st).1.2 = some e →
      (a.RegisterNewUser email password w).1 = (0, some (fmtErrorf "Auth.RegisterNewUser" e)) ∧
      callsMade w (a.RegisterNewUser email password w).2
        = [.bcryptGenerate (bytesOf password) bcrypt.DefaultCost]) ∧
    ((a.RegisterNewUser email password w).1.2 = none →
      (a.userStep email (a.afterRegister email password w).st).1.2 = none →
      (a.userStep email (a.afterRegister email password w).st).1.1.PasswordHash
        = (a.hashStep password w.st).1.1 →
      (a.appStep email password appID (a.afterRegister email password w).st).1.2 = none →
      (a.lib.HashVerifies →
        (a.verifyStep email password (a.afterRegister email password w).st).1 = none) ∧
      (∀ e, (a.verifyStep email password (a.afterRegister email password w).st).1 = some e →
        (a.Login email password appID (a.afterRegister email password w)).1
          = ("", some (fmtErrorf "Auth.Login" ErrInvalidCredentials))) ∧
      ((a.verifyStep email password (a.afterRegister email password w).st).1 = none →
        (a.Login email password appID (a.afterRegister email password w)).1
          = (match (a.tokenStep email password appID
                (a.afterRegister email password w).st).1.2 with
            | none =>
              ((a.tokenStep email password appID (a.afterRegister email password w).st).1.1,
                none)
            | some e => ("", some (fmtErrorf "Auth.Login" e))) ∧
        callsMade (a.afterRegister email password w)
            (a.Login email password appID (a.afterRegister email password w)).2
          = [.usrProvider email,
              .bcryptCompare (a.hashStep password w.st).1.1 (bytesOf password),
              .appProvider appID,
              .jwtNewToken (a.userStep email (a.afterRegister email password w).st).1.1
                (a.appStep email password appID (a.afterRegister email password w).st).1.1
                a.tokenTTL])) := by
  have hReg : (a.RegisterNewUser email password w).1.2 = none ↔
      ((a.hashStep password w.st).1.2 = none ∧ (a.saveStep email password w.st).1.2 = none) := by
    cases h₁ : (a.hashStep password w.st).1.2 with
    | some e => rw [register_hash_error a email password w e h₁]; simp
    | none =>
      cases h₂ : (a.saveStep email password w.st).1.2 with
      | some e => rw [register_save_error a email password w e h₁ h₂]; simp
      | none => rw [register_success a email password w h₁ h₂]; simp
  refine ⟨hReg, ?_, ?_, ?_⟩
  · intro h
    rw [register_success a email password w (hReg.mp h).1 (hReg.mp h).2]
  · intro e he
    rw [register_hash_error a email password w e he]
    simp [callsMade]
  · intro h hUser hHash hApp
    refine ⟨?_, ?_, ?_⟩
    · intro hLib
      have hv := hLib (bytesOf password) bcrypt.DefaultCost w.st
        (a.userStep email (a.afterRegister email password w).st).2 (hReg.mp h).1
      simp only [Auth.verifyStep, hHash]
      exact hv
    · intro e he
      rw [login_wrong_password a email password appID _ e hUser he]
    · intro hv
      cases ht : (a.tokenStep email password appID (a.afterRegister email password w).st).1.2 with
      | some e =>
        rw [login_token_error a email password appID _ e hUser hv hApp ht, hHash]
        simp [callsMade]
      | none =>
        rw [login_success a email password appID _ hUser hv hApp ht, hHash]
        simp [callsMade]

/-- Witness of C4, amended: b@x.com registers and logs in to application 1, once against the
in-memory store, which returns ID 2, and once against the wired PostgreSQL store, whose
`SaveUser` returns ID 0 although the row is stored under ID 2. -/
theorem register_then_login_witness :
    ((Fixture.auth.RegisterNewUser "b@x.com" "hunter2" Fixture.world).1 = (2, none) ∧
      (Fixture.auth.Login "b@x.com" "hunter2" 1
          (Fixture.auth.afterRegister "b@x.com" "hunter2" Fixture.world)).1
        = ("b@x.com|app|s3cr3t", none)) ∧
    (((Auth.ofStorage Fixture.storageLive 3600000000000 Fixture.lib).RegisterNewUser
          "b@x.com" "hunter2" Fixture.world₀).1 = (0, none) ∧
      ((Auth.ofStorage Fixture.storageLive 3600000000000 Fixture.lib).Login "b@x.com" "hunter2" 1
          ((Auth.ofStorage Fixture.storageLive 3600000000000 Fixture.lib).afterRegister
            "b@x.com" "hunter2" Fixture.world₀)).1
        = ("b@x.com|app|s3cr3t", none)) := by
  have T₁ := register_then_login Fixture.auth "b@x.com" "hunter2" 1 Fixture.world
  have T₂ := register_then_login (Auth.ofStorage Fixture.storageLive 3600000000000 Fixture.lib)
    "b@x.com" "hunter2" 1 Fixture.world₀
  have h₁ := T₁.1.mpr ⟨by decide, by decide⟩
  have h₂ := T₂.1.mpr ⟨by decide, by decide⟩
  have L₁ := T₁.2.2.2 h₁ (by decide) (by decide) (by decide)
  have L₂ := T₂.2.2.2 h₂ (by decide) (by decide) (by decide)
  refine ⟨⟨?_, ?_⟩, ⟨?_, ?_⟩⟩
  · exact Prod.ext ((T₁.2.1 h₁).trans (by decide)) h₁
  · exact ((L₁.2.2 (L₁.1 Fixture.lib_hashVerifies)).1).trans (by decide)
  · exact Prod.ext ((T₂.2.1 h₂).trans (by decide)) h₂
  · exact ((L₂.2.2 (L₂.1 Fixture.lib_hashVerifies)).1).trans (by decide)

/-! ## The PostgreSQL store -/

section StorePaths

variable {σ : Type} (s : Storage σ) (w : World σ)

/-- When `Begin` fails, `SaveUser` returns nothing: it panics in the deferred `Rollback`. -/
theorem saveUser_begin_error (email : String) (passHash : Bytes) (e : GoError)
    (h : (s.db.Begin w.st).1 = some e) :
    s.SaveUser email passHash w = none := by
  simp [Storage.SaveUser, World.invoke, h]

/-- When `Begin` succeeds, `SaveUser` returns, and its results are made from the value `Scan`
left in `id` and the error of `Commit` alone: the error of the INSERT and its `Scan` is not in
them. -/
theorem saveUser_results (email : String) (passHash : Bytes)
    (h : (s.db.Begin w.st).1 = none) :
    (s.SaveUser email passHash w).map Prod.fst =
      some (match (s.db.Commit (s.db.InsertUser email passHash (s.db.Begin w.st).2).2).1 with
        | some e => (0, some (fmtErrorf "storage.pgsql.SaveUser" e))
        | none => ((s.db.InsertUser email passHash (s.db.Begin w.st).2).1.1, none)) := by
  simp only [Storage.SaveUser, World.invoke, h]
  cases (s.db.Commit (s.db.InsertUser email passHash (s.db.Begin w.st).2).2).1 <;> rfl

/-- When `Scan` reports an error that matches `sql.ErrNoRows`, `User` returns the zero user
and `storage.ErrUserNotFound` wrapped with its operation name. -/
theorem storage_user_sql_no_rows (email : String) (e : GoError)
    (h : (s.db.SelectUser email w.st).1.2 = some e) (hIs : errorsIs e sql.ErrNoRows = true) :
    (s.User email w).1 = (User.zero, some (fmtErrorf "storage.pgsql.User" storage.ErrUserNotFound)) ∧
    errorsIs (fmtErrorf "storage.pgsql.User" storage.ErrUserNotFound) storage.ErrUserNotFound
      = true := by
  refine ⟨?_, errorsIs_fmtErrorf_self _ _⟩
  simp [Storage.User, World.invoke, h, hIs]

/-- When `Scan` reports an error that does not match `sql.ErrNoRows`, `User` returns the zero
user and that error wrapped with its operation name; the result matches
`storage.ErrUserNotFound` only if the error of `Scan` did. -/
theorem storage_user_other_error (email : String) (e : GoError)
    (h : (s.db.SelectUser email w.st).1.2 = some e) (hIs : errorsIs e sql.ErrNoRows = false) :
    (s.User email w).1 = (User.zero, some (fmtErrorf "storage.pgsql.User" e)) ∧
    errorsIs (fmtErrorf "storage.pgsql.User" e) storage.ErrUserNotFound
      = errorsIs e storage.ErrUserNotFound := by
  refine ⟨?_, errorsIs_fmtErrorf_errorString _ _ _ _⟩
  simp [Storage.User, World.invoke, h, hIs]

/-- The two cases of `App`, as for `User`. -/
theorem storage_app_error (id : Int) (e : GoError)
    (h : (s.db.SelectApp id w.st).1.2 = some e) :
    (s.App id w).1 =
      (App.zero, some (fmtErrorf "storage.pgsql.App"
        (if errorsIs e sql.ErrNoRows then storage.ErrAppNotFound else e))) := by
  cases hIs : errorsIs e sql.ErrNoRows <;> simp [Storage.App, World.invoke, h, hIs]

end StorePaths

/-- C10, the code at the failing inputs.  A new email: the INSERT stores the row, `Scan` finds
no row to read the new ID from (the statement has no RETURNING clause), `Commit` returns nil,
and `SaveUser` returns ID 0 and a nil error: the error of `Scan` is lost.  The calls made
are `Begin`, the INSERT, `Commit` and the deferred `Rollback`, and `RegisterNewUser` over the
wired store returns ID 0 and a nil error as well.  The code gives the same answer when the
INSERT is rejected for a duplicate email and `Commit` returns nil (PostgreSQL does not answer
so after a rejected statement; this is what the code does with such a driver).  When `Begin`
fails, `SaveUser` does not return the wrapped error: it panics. -/
theorem saveUser_insert_error_overwritten :
    ((Fixture.storage (some Fixture.errUniqueViolation) none).SaveUser "a@x.com"
      (36 :: bytesOf "secret123") ⟨(), []⟩).map Prod.fst = some (0, none) ∧
    ((Fixture.storage (some pgx.ErrNoRows) none).SaveUser "b@x.com"
      (36 :: bytesOf "hunter2") ⟨(), []⟩).map Prod.fst = some (0, none) ∧
    ((Fixture.storage (some Fixture.errUniqueViolation) none).SaveUser "a@x.com"
      (36 :: bytesOf "secret123") ⟨(), []⟩).map (fun r => r.2.calls)
      = some [.dbBegin, .txInsertUser "a@x.com" (36 :: bytesOf "secret123"), .txCommit,
          .txRollback] ∧
    ((Fixture.storage (some pgx.ErrNoRows) none).SaveUser "b@x.com"
      (36 :: bytesOf "hunter2") ⟨(), []⟩).map (fun r => r.2.calls)
      = some [.dbBegin, .txInsertUser "b@x.com" (36 :: bytesOf "hunter2"), .txCommit,
          .txRollback] ∧
    ((Auth.ofStorage Fixture.storageLive 3600000000000 Fixture.lib).RegisterNewUser
      "b@x.com" "hunter2" Fixture.world₀).1 = (0, none) ∧
    (Fixture.storageDown.db.Begin ()).1 = some Fixture.errConnRefused ∧
    (Fixture.storageDown.SaveUser "b@x.com" (36 :: bytesOf "hunter2") ⟨(), []⟩).map Prod.fst
      = none := by
  refine ⟨by decide, by decide, by decide, by decide, by decide, by decide, by decide⟩

/-- C5, the code at the failing inputs: the service is wired to the store and the INSERT is
rejected for a duplicate email.  If `Commit` returns the driver's commit-turned-rollback
error, as it does after a rejected statement, `RegisterNewUser` returns that error wrapped
twice; it does not match the unique violation under `errors.Is`, and it is the same error
that an INSERT rejected for another reason gives.  If `Commit` returned nil (PostgreSQL does
not answer so after a rejected statement), `RegisterNewUser` would return ID 0 and a nil
error. -/
theorem registerNewUser_duplicate_email_not_reported :
    ((Auth.ofStorage (Fixture.storage (some Fixture.errUniqueViolation) none)
        3600000000000 Fixture.lib).RegisterNewUser "a@x.com" "secret123" Fixture.world₀).1
      = (0, none) ∧
    ((Auth.ofStorage
        (Fixture.storage (some Fixture.errUniqueViolation) (some Fixture.ErrTxCommitRollback))
        3600000000000 Fixture.lib).RegisterNewUser "a@x.com" "secret123" Fixture.world₀).1
      = (0, some (fmtErrorf "Auth.RegisterNewUser"
          (fmtErrorf "storage.pgsql.SaveUser" Fixture.ErrTxCommitRollback))) ∧
    errorsIs (fmtErrorf "Auth.RegisterNewUser"
      (fmtErrorf "storage.pgsql.SaveUser" Fixture.ErrTxCommitRollback))
      Fixture.errUniqueViolation = false ∧
    ((Auth.ofStorage
        (Fixture.storage (some Fixture.errNotNullViolation) (some Fixture.ErrTxCommitRollback))
        3600000000000 Fixture.lib).RegisterNewUser "a@x.com" "secret123" Fixture.world₀).1
      = ((Auth.ofStorage
        (Fixture.storage (some Fixture.errUniqueViolation) (some Fixture.ErrTxCommitRollback))
        3600000000000 Fixture.lib).RegisterNewUser "a@x.com" "secret123" Fixture.world₀).1 := by
  refine ⟨by decide, by decide, by decide, by decide⟩

/-- C9, the code at the failing inputs: the tables have no row, so `Scan` reports
`pgx.ErrNoRows`, which does not match `sql.ErrNoRows`.  `User` and `App` return it wrapped
with their operation names; the results match neither `storage.ErrUserNotFound` nor
`storage.ErrAppNotFound`, and `Login` over this store returns an error that does not match
`ErrInvalidCredentials`. -/
theorem storage_no_rows_not_reported_as_not_found :
    errorsIs pgx.ErrNoRows sql.ErrNoRows = false ∧
    ((Fixture.storage none none).User "nouser@x.com" ⟨(), []⟩).1
      = (User.zero, some (fmtErrorf "storage.pgsql.User" pgx.ErrNoRows)) ∧
    errorsIs (fmtErrorf "storage.pgsql.User" pgx.ErrNoRows) storage.ErrUserNotFound = false ∧
    ((Fixture.storage none none).App 999 ⟨(), []⟩).1
      = (App.zero, some (fmtErrorf "storage.pgsql.App" pgx.ErrNoRows)) ∧
    errorsIs (fmtErrorf "storage.pgsql.App" pgx.ErrNoRows) storage.ErrAppNotFound = false ∧
    ((Auth.ofStorage (Fixture.storage none none) 3600000000000 Fixture.lib).Login
        "nouser@x.com" "x" 1 Fixture.world₀).1
      = ("", some (fmtErrorf "Auth.Login" (fmtErrorf "storage.pgsql.User" pgx.ErrNoRows))) ∧
    errorsIs (fmtErrorf "Auth.Login" (fmtErrorf "storage.pgsql.User" pgx.ErrNoRows))
      ErrInvalidCredentials = false := by
  refine ⟨by decide, by decide, by decide, by decide, by decide, by decide, by decide⟩
